import Mathlib

/-!
Verification development for the `alfred-browser-tabs` repository
(`src/lockfile.py`, `src/list-tabs.py`).

The Python source is shallowly embedded below:
  * the pure URL-normalisation helpers (`get_favicon_url`,
    `get_favicon_path`) become Lean string functions, including an
    executable model of the two `re.sub` calls, of
    `urllib.parse.quote(_, safe='')` and of SHA-256;
  * the stateful `LockFile` class becomes explicit state passing over a
    `World` record describing the lock file on disk, the advisory flock
    on the inode currently at the lock path, the clock and the set of
    live pids;
  * `IconDownloader` becomes explicit state passing over the lock world
    plus the set of files existing in the cache directory, with the
    time spent blocked on the fetch batch made observable.
-/

namespace BrowserTabs

/-! ## PathResolver (`list-tabs.py` pure helpers) -/

/-- Model of Python `\w` on the ASCII inputs we care about
(`FAVICON_FILE_RE` uses `\w+` for the URL scheme). -/
def isWordChar (c : Char) : Bool :=
  c.isAlphanum || c = '_'

/-- One attempted match of `FAVICON_FILE_RE = r'\w+://(?:www\.)?([^?#]+).*'`
anchored at the head of `cs`.  Returns `(group1, rest-after-match)` on
success.  `\w+` is greedy and can only be followed by `:` at its maximal
extent; `(?:www\.)?` is tried greedily first and dropped on failure of
the mandatory `[^?#]+`; `.*` stops at a newline (`[^?#]` does not). -/
def tryMatchFileRe (cs : List Char) : Option (List Char × List Char) :=
  let w := cs.takeWhile isWordChar
  if w.isEmpty then none
  else
    match cs.drop w.length with
    | ':' :: '/' :: '/' :: r2 =>
      let attempt : List Char → Option (List Char × List Char) := fun r =>
        let g := r.takeWhile (fun c => !(c = '?' || c = '#'))
        if g.isEmpty then none
        else
          let tail := r.drop g.length
          some (g, tail.drop (tail.takeWhile (fun d => d ≠ '\n')).length)
      match r2 with
      | 'w' :: 'w' :: 'w' :: '.' :: r3 =>
        match attempt r3 with
        | some res => some res
        | none => attempt r2
      | _ => attempt r2
    | _ => none

/-- Scanning loop of `re.sub(FAVICON_FILE_RE, r'\1', url)`: leftmost
match wins, the match is replaced by its first group, scanning resumes
after the match.  Fuel is the remaining length, enough because every
step consumes at least one character. -/
def fileUrlSubFuel : Nat → List Char → List Char
  | 0, l => l
  | _ + 1, [] => []
  | n + 1, c :: rest =>
    match tryMatchFileRe (c :: rest) with
    | some (g, after) => g ++ fileUrlSubFuel n after
    | none => c :: fileUrlSubFuel n rest

/-- Model of `FAVICON_FILE_RE.sub(r'\1', url)` — strips scheme, optional
`www.`, and everything from the first `?` or `#` on. -/
def fileUrlSub (s : String) : String :=
  ⟨fileUrlSubFuel s.data.length s.data⟩

/-- Scanning loop of `re.sub(FAVICON_KEY_URL_RE, '', url)` where
`FAVICON_KEY_URL_RE = r'[?#].*'`: each match starts at a `?` or `#` and
runs to the next newline (exclusive). -/
def keyUrlSubFuel : Nat → List Char → List Char
  | 0, l => l
  | _ + 1, [] => []
  | n + 1, c :: rest =>
    if c = '?' || c = '#' then keyUrlSubFuel n (rest.dropWhile (fun d => d ≠ '\n'))
    else c :: keyUrlSubFuel n rest

/-- Model of `FAVICON_KEY_URL_RE.sub('', url)` — drops query and fragment. -/
def keyUrlSub (s : String) : String :=
  ⟨keyUrlSubFuel s.data.length s.data⟩

/-- The `FAVICON_SIZE` constant from `list-tabs.py`. -/
def FAVICON_SIZE : Nat := 32

/-- Model of `get_favicon_url(url, size)`: strip query/fragment, substitute into
`FAVICON_URL_FORMAT`. -/
def get_favicon_url (url : String) (size : Nat) : String :=
  "https://t2.gstatic.com/faviconV2?client=SOCIAL&type=FAVICON&fallback_opts=TYPE,SIZE,URL&url="
    ++ keyUrlSub url ++ "&size=" ++ toString size

/-- UTF-8 encoding of one character, as byte values. -/
def utf8Bytes (c : Char) : List Nat :=
  let n := c.toNat
  if n < 128 then [n]
  else if n < 2048 then [192 ||| (n >>> 6), 128 ||| (n &&& 63)]
  else if n < 65536 then
    [224 ||| (n >>> 12), 128 ||| ((n >>> 6) &&& 63), 128 ||| (n &&& 63)]
  else
    [240 ||| (n >>> 18), 128 ||| ((n >>> 12) &&& 63),
     128 ||| ((n >>> 6) &&& 63), 128 ||| (n &&& 63)]

/-- Upper-case hex digit, as used by `urllib.parse.quote`. -/
def hexDigitUpper (n : Nat) : Char :=
  if n < 10 then Char.ofNat (48 + n) else Char.ofNat (55 + n)

/-- Lower-case hex digit, as used by `hashlib`'s `hexdigest`. -/
def hexDigitLower (n : Nat) : Char :=
  if n < 10 then Char.ofNat (48 + n) else Char.ofNat (87 + n)

/-- The characters `urllib.parse.quote` never encodes (ASCII letters,
digits, `_.-~`); with `safe=''` nothing else is kept. -/
def alwaysSafe (c : Char) : Bool :=
  c.isAlpha || c.isDigit || c = '_' || c = '.' || c = '-' || c = '~'

/-- Model of `urllib.parse.quote(s, safe='')` on one character. -/
def quoteChar (c : Char) : List Char :=
  if alwaysSafe c then [c]
  else ((utf8Bytes c).map
    (fun b => ['%', hexDigitUpper (b / 16), hexDigitUpper (b % 16)])).flatten

/-- Model of `urllib.parse.quote(s, safe='')`. -/
def quote (s : String) : String :=
  ⟨(s.data.map quoteChar).flatten⟩

/-! ### SHA-256 (`hashlib.sha256(...).hexdigest()`), on byte lists -/

/-- Addition modulo `2 ^ 32`. -/
def add32 (a b : Nat) : Nat := (a + b) % 4294967296

/-- Right rotation of a 32-bit word. -/
def rotr (n x : Nat) : Nat :=
  (x >>> n) ||| ((x <<< (32 - n)) % 4294967296)

def bigSigma0 (x : Nat) : Nat := rotr 2 x ^^^ rotr 13 x ^^^ rotr 22 x

def bigSigma1 (x : Nat) : Nat := rotr 6 x ^^^ rotr 11 x ^^^ rotr 25 x

def smallSigma0 (x : Nat) : Nat := rotr 7 x ^^^ rotr 18 x ^^^ (x >>> 3)

def smallSigma1 (x : Nat) : Nat := rotr 17 x ^^^ rotr 19 x ^^^ (x >>> 10)

def chF (x y z : Nat) : Nat := (x &&& y) ^^^ ((x ^^^ 4294967295) &&& z)

def majF (x y z : Nat) : Nat := (x &&& y) ^^^ (x &&& z) ^^^ (y &&& z)

/-- The 64 SHA-256 round constants, written in decimal. -/
def K64 : List Nat :=
  [1116352408, 1899447441, 3049323471, 3921009573, 961987163, 1508970993,
   2453635748, 2870763221, 3624381080, 310598401, 607225278, 1426881987,
   1925078388, 2162078206, 2614888103, 3248222580, 3835390401, 4022224774,
   264347078, 604807628, 770255983, 1249150122, 1555081692, 1996064986,
   2554220882, 2821834349, 2952996808, 3210313671, 3336571891, 3584528711,
   113926993, 338241895, 666307205, 773529912, 1294757372, 1396182291,
   1695183700, 1986661051, 2177026350, 2456956037, 2730485921, 2820302411,
   3259730800, 3345764771, 3516065817, 3600352804, 4094571909, 275423344,
   430227734, 506948616, 659060556, 883997877, 958139571, 1322822218,
   1537002063, 1747873779, 1955562222, 2024104815, 2227730452, 2361852424,
   2428436474, 2756734187, 3204031479, 3329325298]

/-- Initial SHA-256 hash value, written in decimal. -/
def H0 : List Nat :=
  [1779033703, 3144134277, 1013904242, 2773480762,
   1359893119, 2600822924, 528734635, 1541459225]

/-- Big-endian encoding of `n` on `k` bytes. -/
def beBytes (k n : Nat) : List Nat :=
  (List.range k).map (fun i => (n >>> (8 * (k - 1 - i))) % 256)

/-- SHA-256 padding: append `0x80`, zeros to 56 mod 64, then the
bit length as 8 big-endian bytes. -/
def sha256Pad (msg : List Nat) : List Nat :=
  let L := msg.length
  let z := (119 - L % 64) % 64
  msg ++ 128 :: List.replicate z 0 ++ beBytes 8 (8 * L)

/-- Group bytes into 32-bit big-endian words. -/
def toWords : List Nat → List Nat
  | a :: b :: c :: d :: rest =>
    (a * 16777216 + b * 65536 + c * 256 + d) :: toWords rest
  | _ => []

/-- Extend the 16 block words to the 64-entry message schedule. -/
def schedule (ws : List Nat) : List Nat :=
  (List.range 48).foldl
    (fun acc j =>
      let i := j + 16
      acc ++ [add32 (add32 (smallSigma1 (acc.getD (i - 2) 0)) (acc.getD (i - 7) 0))
                    (add32 (smallSigma0 (acc.getD (i - 15) 0)) (acc.getD (i - 16) 0))])
    ws

/-- One SHA-256 compression round on the 8-word working state. -/
def sha256Round (k wt : Nat) (h8 : List Nat) : List Nat :=
  match h8 with
  | [a, b, c, d, e, f, g, h] =>
    let t1 := add32 (add32 (add32 h (bigSigma1 e)) (add32 (chF e f g) k)) wt
    let t2 := add32 (bigSigma0 a) (majF a b c)
    [add32 t1 t2, a, b, c, add32 d t1, e, f, g]
  | l => l

/-- Process one 64-byte block. -/
def sha256Block (h8 block : List Nat) : List Nat :=
  let ws := schedule (toWords block)
  let h9 := (List.zip K64 ws).foldl (fun acc kw => sha256Round kw.1 kw.2 acc) h8
  List.zipWith add32 h8 h9

/-- Split into 64-byte blocks (fuel-driven; the input length is enough
fuel because every step consumes at least one byte). -/
def splitBlocksFuel : Nat → List Nat → List (List Nat)
  | 0, _ => []
  | _ + 1, [] => []
  | n + 1, l => l.take 64 :: splitBlocksFuel n (l.drop 64)

/-- SHA-256 of a byte list, as the 8 final 32-bit words. -/
def sha256 (msg : List Nat) : List Nat :=
  let padded := sha256Pad msg
  (splitBlocksFuel padded.length padded).foldl sha256Block H0

/-- One 32-bit word as 8 lower-case hex characters. -/
def word2hex (w : Nat) : List Char :=
  (List.range 8).map (fun i => hexDigitLower ((w >>> (4 * (7 - i))) % 16))

/-- Model of `hashlib.sha256(bytes).hexdigest()`. -/
def hexdigest (msg : List Nat) : String :=
  ⟨((sha256 msg).map word2hex).flatten⟩

/-- UTF-8 bytes of a string (`.encode('utf-8')`). -/
def strBytes (s : String) : List Nat :=
  (s.data.map utf8Bytes).flatten

/-- The `FAVICON_CACHE_DIR` constant from `list-tabs.py`; `expanduser` is left as
the literal `~` since only the path string matters here. -/
def FAVICON_CACHE_DIR : String :=
  "~/Library/Caches/com.runningwithcrayons.Alfred/Workflow Data/slamm.browser.tabs"

/-- Model of `get_favicon_path(url, dir)`: normalise with `FAVICON_FILE_RE`,
percent-encode, hash with SHA-256, format as `<hexdigest>.png` under
`dir`. -/
def get_favicon_path (url : String) (dir : String := FAVICON_CACHE_DIR) : String :=
  dir ++ "/" ++ hexdigest (strBytes (quote (fileUrlSub url))) ++ ".png"

/-! ## ProcessLock (`lockfile.py`, class `LockFile`)

The class is embedded as explicit state passing.  `World` is the part
of the operating system the methods touch: the lock record file (its
text content and last-modified time), the holder of the advisory
`flock` on the inode currently reachable through the lock path, the
wall clock and the set of live pids.  Unlinking the file makes the
path refer to a fresh inode on the next `open`, so `breakLock` clears
the path-level flock holder even though the old holder keeps its lock
on the now orphaned inode. -/

namespace LockModel

/-- The lock record file: text content and `st_mtime`. -/
structure Rec where
  content : String
  mtime : Nat
deriving Repr, DecidableEq

/-- Operating-system state seen through the lock path. -/
structure World where
  record : Option Rec
  flockHolder : Option Nat
  now : Nat
  aliveList : List Nat
deriving Repr, DecidableEq

/-- A Python file object: only whether it has been closed matters. -/
structure Handle where
  closed : Bool
deriving Repr, DecidableEq

/-- Per-instance state of a `LockFile` object:
`self.lock_file` and `self.stale_age_sec`. -/
structure LockSt where
  lockFile : Option Handle
  staleAgeSec : Nat
deriving Repr, DecidableEq

/-- Model of `LockFile.__init__`: no file object yet, default threshold 60s. -/
def lockInit (staleAgeSec : Nat := 60) : LockSt :=
  ⟨none, staleAgeSec⟩

/-- Model of `self.lock_file_path.open('w')`: truncates an existing record
(content becomes empty, mtime is refreshed) keeping its inode and any
flock on it, or creates a fresh record whose inode carries no flock. -/
def openW (w : World) : World :=
  match w.record with
  | some _ => { w with record := some ⟨"", w.now⟩ }
  | none => { w with record := some ⟨"", w.now⟩, flockHolder := none }

/-- Successful `flock` followed by `write(str(os.getpid()))` and
`flush`. -/
def flockWrite (self : Nat) (w : World) : World :=
  { w with flockHolder := some self, record := some ⟨toString self, w.now⟩ }

/-- Model of `os.kill(pid, 9)`. -/
def kill9 (pid : Nat) (w : World) : World :=
  { w with aliveList := w.aliveList.filter (fun q => q ≠ pid) }

/-- Model of `LockFile._is_file_stale` (leading underscore dropped): the file
vanished, or its age exceeds the threshold. -/
def is_file_stale (st : LockSt) (w : World) : Bool :=
  match w.record with
  | none => true
  | some r => decide (st.staleAgeSec < w.now - r.mtime)

/-- Python `int(text.strip())`, for the decimal naturals the lock code
writes: strip whitespace, then parse an all-digit string; anything
else raises `ValueError` (`none`). -/
def parsePid (s : String) : Option Nat :=
  let cs := ((s.data.dropWhile (fun c => c.isWhitespace)).reverse.dropWhile
      (fun c => c.isWhitespace)).reverse
  if cs.isEmpty then none
  else if cs.all (fun c => c.isDigit) then
    some (cs.foldl (fun n c => 10 * n + (c.toNat - 48)) 0)
  else none

/-- Model of `LockFile.is_stale`: read the record text from the path; a missing
file is stale (`FileNotFoundError`); unparsable content
(`ValueError` from `int`) falls back to the age check; a dead pid
(`ESRCH`) is stale; a live pid is stale only when the file is
age-stale, in which case the old process is killed. -/
def is_stale (st : LockSt) (w : World) : Bool × World :=
  match w.record with
  | none => (true, w)
  | some r =>
    match parsePid r.content with
    | none => (is_file_stale st w, w)
    | some pid =>
      if pid ∈ w.aliveList then
        if is_file_stale st w then (true, kill9 pid w) else (false, w)
      else (true, w)

/-- Model of `LockFile.break_lock`: unlink the record, tolerating absence.  The
path then refers to no inode, so the path-level flock is gone. -/
def breakLock (w : World) : World :=
  { w with record := none, flockHolder := none }

/-- Result of `LockFile.acquire`: the returned boolean, the instance
state, the world, and how many `flock` attempts were made. -/
structure AcqRes where
  ok : Bool
  st : LockSt
  w : World
  attempts : Nat
deriving Repr, DecidableEq

/-- Model of `LockFile.acquire(is_retry=True)`: open (truncating), try `flock`;
on success write the pid and return `True`; on `EWOULDBLOCK` evaluate
`is_stale()` (its side effects happen because `and` evaluates the left
operand first), close the handle and return `False` — no further
retry.

`intf` is the environment: what the other processes do to the lock
file in the race window between our failed `flock` and our staleness
read.  `id` is the quiet (no-interference) environment, which is also
the default at every call site. -/
def acquire2 (self : Nat) (st : LockSt) (w : World)
    (intf : World → World := id) : AcqRes :=
  let st1 : LockSt := { st with lockFile := some ⟨false⟩ }
  let w1 := openW w
  if w1.flockHolder.isNone then
    ⟨true, st1, flockWrite self w1, 1⟩
  else
    let sres := is_stale st1 (intf w1)
    ⟨false, { st1 with lockFile := some ⟨true⟩ }, sres.2, 1⟩

/-- Model of `LockFile.acquire()` (entry call, `is_retry=False`): as above, but
when the held lock is stale it breaks the lock and retries exactly
once via `acquire2`.  `intf` is applied in the two race windows other
processes can act in: between the failed `flock` and the staleness
read, and between breaking the lock and reopening it in the retry. -/
def acquire (self : Nat) (st : LockSt) (w : World)
    (intf : World → World := id) : AcqRes :=
  let st1 : LockSt := { st with lockFile := some ⟨false⟩ }
  let w1 := openW w
  if w1.flockHolder.isNone then
    ⟨true, st1, flockWrite self w1, 1⟩
  else
    let sres := is_stale st1 (intf w1)
    if sres.1 then
      let r2 := acquire2 self st1 (intf (breakLock sres.2)) intf
      ⟨r2.ok, r2.st, r2.w, r2.attempts + 1⟩
    else
      ⟨false, { st1 with lockFile := some ⟨true⟩ }, sres.2, 1⟩

/-- Model of `LockFile.release`: a no-op when `self.lock_file` is `None`;
otherwise `flock(LOCK_UN)` on the stored file object — which raises
(`ValueError`) when that object was already closed by a failed
`acquire` — then close, reset the field, and unlink the record
tolerating absence. -/
def release (self : Nat) (st : LockSt) (w : World) :
    Except Unit (LockSt × World) :=
  match st.lockFile with
  | none => .ok (st, w)
  | some h =>
    if h.closed then .error ()
    else
      let w1 := if w.flockHolder = some self then { w with flockHolder := none } else w
      .ok ({ st with lockFile := none }, { w1 with record := none })

end LockModel

/-! ## DownloadCoordinator (`list-tabs.py`, class `IconDownloader`)

`download` is embedded with the effects the claims talk about made
observable: how many `flock` attempts were made, which job list (if
any) was fed to the detached `curl` batch, and how long the call was
blocked waiting on that batch.  `proc.communicate(input=...)` writes
the config to `curl`'s stdin and then waits for the process to
terminate (no timeout), so the blocked time equals the batch duration
supplied by the environment; the subsequent `proc.wait(timeout=...)`
then finds the process already exited.  The files the batch creates
are an effect of the external fetch collaborator and are left to the
environment (`DWorld.files`). -/

namespace IconDownloader

/-- A `subprocess.Popen` handle: `running` is `poll() is None`. -/
structure Proc where
  running : Bool
deriving Repr, DecidableEq

/-- Instance state of an `IconDownloader`:
`self.url_paths` (url, path) pairs, `self.timeout`, `self.lockfile`,
`self.proc`. -/
structure DSt where
  url_paths : List (String × String)
  timeout : Nat
  lock : LockModel.LockSt
  proc : Option Proc
deriving Repr, DecidableEq

/-- Environment of one `download` call: the files existing in the
cache directory, the lock world, and how long the fetch batch runs. -/
structure DWorld where
  files : List String
  lw : LockModel.World
  batchDuration : Nat
deriving Repr, DecidableEq

/-- Insertion step of `collections.OrderedDict`: an existing key keeps
its position but takes the new value; a new key is appended. -/
def odictInsert (m : List (String × String)) (k v : String) :
    List (String × String) :=
  if m.any (fun q => q.1 == k) then
    m.map (fun q => if q.1 == k then (k, v) else q)
  else m ++ [(k, v)]

/-- Model of `collections.OrderedDict(self.url_paths)` as an association list:
deduplication is by exact URL key. -/
def odict (ps : List (String × String)) : List (String × String) :=
  ps.foldl (fun m p => odictInsert m p.1 p.2) []

/-- The list `needed_path_urls`: the deduplicated pairs whose target file does
not already exist. -/
def needed_path_urls (st : DSt) (w : DWorld) : List (String × String) :=
  (odict st.url_paths).filter (fun up => !(w.files.contains up.2))

/-- Observable result of `IconDownloader.download`. -/
structure DRes where
  st : DSt
  w : DWorld
  lockAttempts : Nat
  launchedJobs : List (String × String)
  launched : Bool
  blocked : Nat
deriving Repr, DecidableEq

/-- Model of `IconDownloader.download`: dedup and filter; return at once when
nothing is needed; otherwise try the lock and return when it is busy;
otherwise launch the detached `curl` batch with one
(output path, fetch url) job per needed pair, block in
`communicate` until the batch exits, and find it already finished in
`wait(timeout=self.timeout)`. -/
def download (self : Nat) (st : DSt) (w : DWorld) : DRes :=
  if (needed_path_urls st w).isEmpty then
    ⟨st, w, 0, [], false, 0⟩
  else if (LockModel.acquire self st.lock w.lw).ok = false then
    ⟨{ st with lock := (LockModel.acquire self st.lock w.lw).st },
     { w with lw := (LockModel.acquire self st.lock w.lw).w },
     (LockModel.acquire self st.lock w.lw).attempts, [], false, 0⟩
  else
    ⟨{ st with lock := (LockModel.acquire self st.lock w.lw).st,
               proc := some ⟨false⟩ },
     { w with lw := (LockModel.acquire self st.lock w.lw).w },
     (LockModel.acquire self st.lock w.lw).attempts,
     (needed_path_urls st w).map
       (fun up => (up.2, get_favicon_url up.1 FAVICON_SIZE)),
     true,
     w.batchDuration⟩

/-- Model of `IconDownloader.is_icon_downloaded`: check existence; when a batch
was launched and `poll()` still reports it running, release the lock
and drop the handle.  `none` stands for an uncaught exception from
`release`. -/
def is_icon_downloaded (self : Nat) (st : DSt) (w : DWorld) (p : String) :
    Option (Bool × DSt × DWorld) :=
  let isDl := w.files.contains p
  match st.proc with
  | some pr =>
    if pr.running then
      match LockModel.release self st.lock w.lw with
      | .ok (lst, lw) =>
        some (isDl, { st with lock := lst, proc := none }, { w with lw := lw })
      | .error _ => none
    else some (isDl, st, w)
  | none => some (isDl, st, w)

end IconDownloader

/-! ## Helper lemmas -/

lemma parsePid_empty : LockModel.parsePid "" = none := by decide

lemma openW_flockHolder_of_free {w : LockModel.World} (h : w.flockHolder = none) :
    (LockModel.openW w).flockHolder = none := by
  unfold LockModel.openW
  cases w.record <;> simp [h]

lemma acquire_of_free (self : Nat) (st : LockModel.LockSt) (w : LockModel.World)
    (intf : LockModel.World → LockModel.World) (h : w.flockHolder = none) :
    LockModel.acquire self st w intf
      = ⟨true, { st with lockFile := some ⟨false⟩ },
         LockModel.flockWrite self (LockModel.openW w), 1⟩ := by
  have h1 := openW_flockHolder_of_free h
  simp [LockModel.acquire, h1]

lemma openW_after_flockWrite (q : Nat) (w : LockModel.World) :
    LockModel.openW (LockModel.flockWrite q (LockModel.openW w))
      = ⟨some ⟨"", w.now⟩, some q, w.now, w.aliveList⟩ := by
  unfold LockModel.openW LockModel.flockWrite
  cases w.record <;> rfl

lemma fileUrlSub_q1_q2 :
    fileUrlSub "https://a.com/x?q=1" = fileUrlSub "https://a.com/x?q=2" := by
  decide

lemma favicon_path_q1_q2 :
    get_favicon_path "https://a.com/x?q=1" = get_favicon_path "https://a.com/x?q=2" := by
  unfold get_favicon_path
  rw [fileUrlSub_q1_q2]

lemma odictInsert_mem {m : List (String × String)} {k v : String}
    {x : String × String} (hx : x ∈ IconDownloader.odictInsert m k v) :
    x ∈ m ∨ x = (k, v) := by
  unfold IconDownloader.odictInsert at hx
  split at hx
  · rcases List.mem_map.1 hx with ⟨q, hq, hfx⟩
    by_cases hk : q.1 == k
    · right
      simp [hk] at hfx
      exact hfx.symm
    · left
      simp [hk] at hfx
      exact hfx ▸ hq
  · rcases List.mem_append.1 hx with h | h
    · exact Or.inl h
    · right
      simpa using h

lemma odict_foldl_mem {x : String × String} :
    ∀ l acc : List (String × String),
      x ∈ l.foldl (fun m p => IconDownloader.odictInsert m p.1 p.2) acc →
      x ∈ acc ∨ x ∈ l := by
  intro l
  induction l with
  | nil => intro acc h; exact Or.inl h
  | cons p l ih =>
    intro acc h
    simp only [List.foldl_cons] at h
    rcases ih (IconDownloader.odictInsert acc p.1 p.2) h with h1 | h1
    · rcases odictInsert_mem h1 with h2 | h2
      · exact Or.inl h2
      · right
        rw [h2]
        simp
    · right
      exact List.mem_cons_of_mem _ h1

lemma odict_mem {l : List (String × String)} {x : String × String}
    (hx : x ∈ IconDownloader.odict l) : x ∈ l := by
  rcases odict_foldl_mem l [] hx with h0 | h0
  · simp at h0
  · exact h0

/-! ## Claim theorems -/

/-- Claim C1 (code bug).  The spec says the lock record keeps the
holder's process identifier until the holder releases, regardless of
other processes' `acquire` attempts.  The code opens the record with
mode `'w'` before trying `flock`, so a competing failed `acquire`
truncates the record: here process 1 acquires and writes `"1"`, then
process 2's `acquire` fails yet leaves the record empty while
process 1 still holds the flock. -/
theorem lock_record_truncated_by_contender :
    (LockModel.acquire 1 LockModel.lockInit ⟨none, none, 0, [1, 2]⟩).ok = true
  ∧ (LockModel.acquire 1 LockModel.lockInit ⟨none, none, 0, [1, 2]⟩).w.record
      = some ⟨"1", 0⟩
  ∧ (LockModel.acquire 2 LockModel.lockInit
      (LockModel.acquire 1 LockModel.lockInit ⟨none, none, 0, [1, 2]⟩).w).ok
      = false
  ∧ (LockModel.acquire 2 LockModel.lockInit
      (LockModel.acquire 1 LockModel.lockInit ⟨none, none, 0, [1, 2]⟩).w).w.flockHolder
      = some 1
  ∧ (LockModel.acquire 2 LockModel.lockInit
      (LockModel.acquire 1 LockModel.lockInit ⟨none, none, 0, [1, 2]⟩).w).w.record
      = some ⟨"", 0⟩ := by
  decide

/-- Claim C2 (code bug).  The spec says `run()` never waits on the
fetch batch beyond the remaining deadline and with deadline 0 never
blocks in the wait step.  The code calls `proc.communicate(input=...)`
— which waits for the batch process to exit with no timeout — before
`proc.wait(timeout=self.timeout)`, so with `timeout = 0` and a batch
taking 3 time units the call is blocked for 3 units. -/
theorem download_blocks_past_deadline :
    (IconDownloader.download 1
        ⟨[("https://e.com/a", "e.png")], 0, LockModel.lockInit, none⟩
        ⟨[], ⟨none, none, 0, [1]⟩, 3⟩).launched = true
  ∧ (IconDownloader.download 1
        ⟨[("https://e.com/a", "e.png")], 0, LockModel.lockInit, none⟩
        ⟨[], ⟨none, none, 0, [1]⟩, 3⟩).blocked = 3
  ∧ (⟨[("https://e.com/a", "e.png")], 0, LockModel.lockInit, none⟩ :
        IconDownloader.DSt).timeout
      < (IconDownloader.download 1
          ⟨[("https://e.com/a", "e.png")], 0, LockModel.lockInit, none⟩
          ⟨[], ⟨none, none, 0, [1]⟩, 3⟩).blocked := by
  decide

/-- Claim C4 (code bug).  The spec says a `run()` that acquired the
lock releases it once it stops actively owning the wait (batch
finished or deadline hit).  In the code `communicate` always waits for
the batch to finish, so `poll()` never returns `None` and the release
inside `is_icon_downloaded` never fires: after this run the readiness
check leaves the flock held, the handle open and the record file on
disk. -/
theorem lock_not_released_after_finished_batch :
    (IconDownloader.download 1
        ⟨[("https://f.com/b", "f.png")], 0, LockModel.lockInit, none⟩
        ⟨[], ⟨none, none, 0, [1]⟩, 3⟩).launched = true
  ∧ IconDownloader.is_icon_downloaded 1
      (IconDownloader.download 1
        ⟨[("https://f.com/b", "f.png")], 0, LockModel.lockInit, none⟩
        ⟨[], ⟨none, none, 0, [1]⟩, 3⟩).st
      (IconDownloader.download 1
        ⟨[("https://f.com/b", "f.png")], 0, LockModel.lockInit, none⟩
        ⟨[], ⟨none, none, 0, [1]⟩, 3⟩).w
      "f.png"
      = some (false,
          (IconDownloader.download 1
            ⟨[("https://f.com/b", "f.png")], 0, LockModel.lockInit, none⟩
            ⟨[], ⟨none, none, 0, [1]⟩, 3⟩).st,
          (IconDownloader.download 1
            ⟨[("https://f.com/b", "f.png")], 0, LockModel.lockInit, none⟩
            ⟨[], ⟨none, none, 0, [1]⟩, 3⟩).w)
  ∧ (IconDownloader.download 1
        ⟨[("https://f.com/b", "f.png")], 0, LockModel.lockInit, none⟩
        ⟨[], ⟨none, none, 0, [1]⟩, 3⟩).w.lw.record = some ⟨"1", 0⟩
  ∧ (IconDownloader.download 1
        ⟨[("https://f.com/b", "f.png")], 0, LockModel.lockInit, none⟩
        ⟨[], ⟨none, none, 0, [1]⟩, 3⟩).w.lw.flockHolder = some 1
  ∧ (IconDownloader.download 1
        ⟨[("https://f.com/b", "f.png")], 0, LockModel.lockInit, none⟩
        ⟨[], ⟨none, none, 0, [1]⟩, 3⟩).st.lock.lockFile = some ⟨false⟩ := by
  decide

/-- Claim C5, counterexample.  The claim says a record whose content
is not a valid process identifier is classified stale unconditionally,
regardless of the file's age.  In the code `ValueError` falls back to
`_is_file_stale`, which is an age check: a fresh record containing
`"garbage"` is classified non-stale, and a failed `acquire` on it does
not break the lock or retry. -/
theorem invalid_pid_fresh_record_not_stale :
    (LockModel.is_stale LockModel.lockInit
        ⟨some ⟨"garbage", 100⟩, some 7, 100, [7]⟩).1 = false
  ∧ (LockModel.acquire 2 LockModel.lockInit
        ⟨some ⟨"garbage", 100⟩, some 7, 100, [7]⟩).ok = false
  ∧ (LockModel.acquire 2 LockModel.lockInit
        ⟨some ⟨"garbage", 100⟩, some 7, 100, [7]⟩).attempts = 1 := by
  decide

/-- Claim C3, counterexample.  On inputs
`[("https://a.com/x?q=1", p1), ("https://a.com/x?q=2", p2)]` with
`p1 = p2` (which path normalisation indeed forces) and the file
absent, the claim says exactly one fetch job is issued; the code
deduplicates by exact URL, the two URLs differ, and two jobs are
issued. -/
theorem download_two_jobs_for_same_path :
    get_favicon_path "https://a.com/x?q=1" = get_favicon_path "https://a.com/x?q=2"
  ∧ (IconDownloader.download 1
      ⟨[("https://a.com/x?q=1", get_favicon_path "https://a.com/x?q=1"),
        ("https://a.com/x?q=2", get_favicon_path "https://a.com/x?q=2")],
       0, LockModel.lockInit, none⟩
      ⟨[], ⟨none, none, 0, [1]⟩, 3⟩).launchedJobs.length = 2 := by
  constructor
  · have h : fileUrlSub "https://a.com/x?q=1" = fileUrlSub "https://a.com/x?q=2" := by
      decide
    unfold get_favicon_path
    rw [h]
  · decide

/-- Claim C5, amended.  A lock record whose content is not a valid
process identifier is not unconditionally stale: `is_stale` classifies
it exactly as `_is_file_stale` does, i.e. stale iff the record file is
missing or older than the staleness threshold (and it performs no side
effect). -/
theorem invalid_pid_staleness_is_age_based (st : LockModel.LockSt)
    (w : LockModel.World) (r : LockModel.Rec) (hrec : w.record = some r)
    (hpid : LockModel.parsePid r.content = none) :
    LockModel.is_stale st w = (LockModel.is_file_stale st w, w) := by
  unfold LockModel.is_stale
  rw [hrec]
  simp [hpid]

/-- Witness for `invalid_pid_staleness_is_age_based` at a concrete
record containing `"garbage"`. -/
theorem invalid_pid_staleness_is_age_based_witness :
    LockModel.parsePid "garbage" = none
  ∧ LockModel.is_stale LockModel.lockInit
      ⟨some ⟨"garbage", 40⟩, some 7, 100, [7]⟩
      = (LockModel.is_file_stale LockModel.lockInit
          ⟨some ⟨"garbage", 40⟩, some 7, 100, [7]⟩,
         ⟨some ⟨"garbage", 40⟩, some 7, 100, [7]⟩) :=
  ⟨by decide,
   invalid_pid_staleness_is_age_based LockModel.lockInit
     ⟨some ⟨"garbage", 40⟩, some 7, 100, [7]⟩ ⟨"garbage", 40⟩ rfl (by decide)⟩

/-- Claim C6.  After `acquire()` has returned `False` the instance
keeps the already-closed file object in `self.lock_file`, so a
subsequent `release()` (such as the unconditional one in `__exit__`)
raises instead of being a no-op; `release()` is a silent no-op exactly
when `acquire` was never attempted (`self.lock_file` still `None`, as
after `__init__`). -/
theorem release_after_failed_acquire_raises (self : Nat)
    (st : LockModel.LockSt) (w : LockModel.World)
    (intf : LockModel.World → LockModel.World) (age : Nat)
    (w2 : LockModel.World) :
    ((LockModel.acquire self st w intf).ok = false →
      LockModel.release self (LockModel.acquire self st w intf).st
        (LockModel.acquire self st w intf).w = Except.error ())
  ∧ LockModel.release self (LockModel.lockInit age) w2
      = Except.ok (LockModel.lockInit age, w2)
  ∧ ((LockModel.acquire self st w intf).ok = true →
      LockModel.release self (LockModel.acquire self st w intf).st
          (LockModel.acquire self st w intf).w
        ≠ Except.ok ((LockModel.acquire self st w intf).st,
            (LockModel.acquire self st w intf).w)) := by
  refine ⟨?_, rfl, ?_⟩
  · intro h
    have hlf : (LockModel.acquire self st w intf).st.lockFile = some ⟨true⟩ := by
      by_cases h1 : (LockModel.openW w).flockHolder.isNone
      · simp [LockModel.acquire, h1] at h
      · by_cases h2 : (LockModel.is_stale { st with lockFile := some ⟨false⟩ }
            (intf (LockModel.openW w))).1
        · by_cases h3 : (LockModel.openW (intf (LockModel.breakLock
              (LockModel.is_stale { st with lockFile := some ⟨false⟩ }
                (intf (LockModel.openW w))).2))).flockHolder.isNone
          · simp [LockModel.acquire, LockModel.acquire2, h1, h2, h3] at h
          · simp [LockModel.acquire, LockModel.acquire2, h1, h2, h3]
        · simp [LockModel.acquire, h1, h2]
    simp [LockModel.release, hlf]
  · intro h hceq
    have hlf : (LockModel.acquire self st w intf).st.lockFile = some ⟨false⟩ := by
      by_cases h1 : (LockModel.openW w).flockHolder.isNone
      · simp [LockModel.acquire, h1]
      · by_cases h2 : (LockModel.is_stale { st with lockFile := some ⟨false⟩ }
            (intf (LockModel.openW w))).1
        · by_cases h3 : (LockModel.openW (intf (LockModel.breakLock
              (LockModel.is_stale { st with lockFile := some ⟨false⟩ }
                (intf (LockModel.openW w))).2))).flockHolder.isNone
          · simp [LockModel.acquire, LockModel.acquire2, h1, h2, h3]
          · simp [LockModel.acquire, LockModel.acquire2, h1, h2, h3] at h
        · simp [LockModel.acquire, h1, h2] at h
    simp [LockModel.release, hlf] at hceq
    have h4 := congrArg LockModel.LockSt.lockFile hceq.1
    simp [hlf] at h4

/-- Witness for `release_after_failed_acquire_raises`: process 1 fails
to acquire against live holder 7, then `release` raises; a fresh
`LockFile` releases as a no-op; and after a successful acquire,
`release` is not a no-op. -/
theorem release_after_failed_acquire_raises_witness :
    (LockModel.acquire 1 LockModel.lockInit ⟨some ⟨"7", 0⟩, some 7, 0, [7]⟩).ok
      = false
  ∧ LockModel.release 1
      (LockModel.acquire 1 LockModel.lockInit ⟨some ⟨"7", 0⟩, some 7, 0, [7]⟩).st
      (LockModel.acquire 1 LockModel.lockInit ⟨some ⟨"7", 0⟩, some 7, 0, [7]⟩).w
      = Except.error ()
  ∧ LockModel.release 1 (LockModel.lockInit 60) ⟨none, none, 0, []⟩
      = Except.ok (LockModel.lockInit 60, ⟨none, none, 0, []⟩)
  ∧ (LockModel.acquire 1 LockModel.lockInit ⟨none, none, 2, [1]⟩).ok = true
  ∧ LockModel.release 1
      (LockModel.acquire 1 LockModel.lockInit ⟨none, none, 2, [1]⟩).st
      (LockModel.acquire 1 LockModel.lockInit ⟨none, none, 2, [1]⟩).w
      ≠ Except.ok ((LockModel.acquire 1 LockModel.lockInit ⟨none, none, 2, [1]⟩).st,
          (LockModel.acquire 1 LockModel.lockInit ⟨none, none, 2, [1]⟩).w) :=
  ⟨by decide,
   (release_after_failed_acquire_raises 1 LockModel.lockInit
      ⟨some ⟨"7", 0⟩, some 7, 0, [7]⟩ id 60 ⟨none, none, 0, []⟩).1 (by decide),
   (release_after_failed_acquire_raises 1 LockModel.lockInit
      ⟨some ⟨"7", 0⟩, some 7, 0, [7]⟩ id 60 ⟨none, none, 0, []⟩).2.1,
   by decide,
   (release_after_failed_acquire_raises 1 LockModel.lockInit
      ⟨none, none, 2, [1]⟩ id 60 ⟨none, none, 0, []⟩).2.2 (by decide)⟩

/-- Claim C7.  Two concurrent `acquire()` calls on the same lock path:
the `flock` is the serialisation point, so one call wins it and
returns `True`; the loser, whose staleness evaluation (under any
interference `intfB` from the environment) reports non-stale — the
claim's "two live, non-stale processes" stipulation — returns `False`:
exactly one of the two calls returns true. -/
theorem acquire_mutual_exclusion (w : LockModel.World) (a b : Nat)
    (stA stB : LockModel.LockSt)
    (intfA intfB : LockModel.World → LockModel.World)
    (hfree : w.flockHolder = none)
    (ha : a ∈ w.aliveList) (hb : b ∈ w.aliveList)
    (hns : (LockModel.is_stale { stB with lockFile := some ⟨false⟩ }
        (intfB (LockModel.openW (LockModel.acquire a stA w intfA).w))).1 = false) :
    (LockModel.acquire a stA w intfA).ok = true
  ∧ (LockModel.acquire b stB (LockModel.acquire a stA w intfA).w intfB).ok
      = false := by
  have hA := acquire_of_free a stA w intfA hfree
  rw [hA] at hns ⊢
  refine ⟨rfl, ?_⟩
  have h2 : (LockModel.openW (LockModel.flockWrite a (LockModel.openW w))).flockHolder
      = some a := by
    rw [openW_after_flockWrite]
  simp [LockModel.acquire, h2, hns]

/-- Witness for `acquire_mutual_exclusion`: pids 1 and 2 race on a
free lock under the quiet environment. -/
theorem acquire_mutual_exclusion_witness :
    (LockModel.is_stale { LockModel.lockInit with lockFile := some ⟨false⟩ }
      (id (LockModel.openW
        (LockModel.acquire 1 LockModel.lockInit ⟨none, none, 5, [1, 2]⟩ id).w))).1
      = false
  ∧ (LockModel.acquire 1 LockModel.lockInit ⟨none, none, 5, [1, 2]⟩ id).ok = true
  ∧ (LockModel.acquire 2 LockModel.lockInit
      (LockModel.acquire 1 LockModel.lockInit ⟨none, none, 5, [1, 2]⟩ id).w id).ok
      = false :=
  ⟨by decide,
   acquire_mutual_exclusion ⟨none, none, 5, [1, 2]⟩ 1 2
     LockModel.lockInit LockModel.lockInit id id rfl (by decide) (by decide)
     (by decide)⟩

/-- Claim C8.  When every requested target file already exists,
`download` returns at once unchanged — zero `flock` attempts, no
subprocess launch, no blocking — and every original pair reports
ready. -/
theorem download_noop_when_all_files_exist (self : Nat)
    (st : IconDownloader.DSt) (w : IconDownloader.DWorld)
    (hproc : st.proc = none)
    (hall : ∀ up ∈ st.url_paths, w.files.contains up.2 = true) :
    IconDownloader.download self st w = ⟨st, w, 0, [], false, 0⟩
  ∧ ∀ up ∈ st.url_paths,
      IconDownloader.is_icon_downloaded self st w up.2 = some (true, st, w) := by
  have hneeded : IconDownloader.needed_path_urls st w = [] := by
    apply List.filter_eq_nil_iff.mpr
    intro up hup
    simpa using hall up (odict_mem hup)
  constructor
  · simp [IconDownloader.download, hneeded]
  · intro up hup
    simp only [IconDownloader.is_icon_downloaded, hproc]
    simpa using hall up hup

/-- Witness for `download_noop_when_all_files_exist` on a one-pair
input whose file is present. -/
theorem download_noop_when_all_files_exist_witness :
    IconDownloader.download 1
        ⟨[("u1", "p1")], 0, LockModel.lockInit, none⟩
        ⟨["p1"], ⟨none, none, 0, []⟩, 9⟩
      = ⟨⟨[("u1", "p1")], 0, LockModel.lockInit, none⟩,
         ⟨["p1"], ⟨none, none, 0, []⟩, 9⟩, 0, [], false, 0⟩
  ∧ IconDownloader.is_icon_downloaded 1
        ⟨[("u1", "p1")], 0, LockModel.lockInit, none⟩
        ⟨["p1"], ⟨none, none, 0, []⟩, 9⟩ "p1"
      = some (true, ⟨[("u1", "p1")], 0, LockModel.lockInit, none⟩,
          ⟨["p1"], ⟨none, none, 0, []⟩, 9⟩) :=
  ⟨(download_noop_when_all_files_exist 1
      ⟨[("u1", "p1")], 0, LockModel.lockInit, none⟩
      ⟨["p1"], ⟨none, none, 0, []⟩, 9⟩ rfl (by decide)).1,
   (download_noop_when_all_files_exist 1
      ⟨[("u1", "p1")], 0, LockModel.lockInit, none⟩
      ⟨["p1"], ⟨none, none, 0, []⟩, 9⟩ rfl (by decide)).2
     ("u1", "p1") (by decide)⟩

/-- Claim C9.  `acquire` terminates after at most two `flock`
attempts, whatever the environment does in the race windows: a free
lock is taken on the first attempt; a failed attempt with a non-stale
record returns `False` immediately with no retry; a failed attempt
with a stale record retries exactly once (two attempts total); and the
retry call `acquire2` on a still-contended lock returns `False` after
its single attempt, with no further retry. -/
theorem acquire_bounded_retry (self : Nat) (st : LockModel.LockSt)
    (w : LockModel.World) (intf : LockModel.World → LockModel.World) :
    (LockModel.acquire self st w intf).attempts ≤ 2
  ∧ ((LockModel.openW w).flockHolder = none →
      (LockModel.acquire self st w intf).ok = true
      ∧ (LockModel.acquire self st w intf).attempts = 1)
  ∧ ((LockModel.openW w).flockHolder ≠ none →
      (LockModel.is_stale { st with lockFile := some ⟨false⟩ }
        (intf (LockModel.openW w))).1 = false →
      (LockModel.acquire self st w intf).ok = false
      ∧ (LockModel.acquire self st w intf).attempts = 1)
  ∧ ((LockModel.openW w).flockHolder ≠ none →
      (LockModel.is_stale { st with lockFile := some ⟨false⟩ }
        (intf (LockModel.openW w))).1 = true →
      (LockModel.acquire self st w intf).attempts = 2)
  ∧ (∀ (w3 : LockModel.World) (intf3 : LockModel.World → LockModel.World),
      (LockModel.openW w3).flockHolder ≠ none →
      (LockModel.acquire2 self st w3 intf3).ok = false
      ∧ (LockModel.acquire2 self st w3 intf3).attempts = 1) := by
  refine ⟨?_, ?_, ?_, ?_, ?_⟩
  · by_cases h1 : (LockModel.openW w).flockHolder.isNone
    · simp [LockModel.acquire, h1]
    · by_cases h2 : (LockModel.is_stale { st with lockFile := some ⟨false⟩ }
          (intf (LockModel.openW w))).1
      · by_cases h3 : (LockModel.openW (intf (LockModel.breakLock
            (LockModel.is_stale { st with lockFile := some ⟨false⟩ }
              (intf (LockModel.openW w))).2))).flockHolder.isNone
        · simp [LockModel.acquire, LockModel.acquire2, h1, h2, h3]
        · simp [LockModel.acquire, LockModel.acquire2, h1, h2, h3]
      · simp [LockModel.acquire, h1, h2]
  · intro hfree
    have h1 : (LockModel.openW w).flockHolder.isNone := by simp [hfree]
    simp [LockModel.acquire, h1]
  · intro hheld hns
    have h1 : (LockModel.openW w).flockHolder.isNone = false := by
      cases hh : (LockModel.openW w).flockHolder
      · exact absurd hh hheld
      · rfl
    simp [LockModel.acquire, h1, hns]
  · intro hheld hst
    have h1 : (LockModel.openW w).flockHolder.isNone = false := by
      cases hh : (LockModel.openW w).flockHolder
      · exact absurd hh hheld
      · rfl
    by_cases h3 : (LockModel.openW (intf (LockModel.breakLock
        (LockModel.is_stale { st with lockFile := some ⟨false⟩ }
          (intf (LockModel.openW w))).2))).flockHolder.isNone
    · simp [LockModel.acquire, LockModel.acquire2, h1, hst, h3]
    · simp [LockModel.acquire, LockModel.acquire2, h1, hst, h3]
  · intro w3 intf3 hheld
    have h1 : (LockModel.openW w3).flockHolder.isNone = false := by
      cases hh : (LockModel.openW w3).flockHolder
      · exact absurd hh hheld
      · rfl
    simp [LockModel.acquire2, h1]

/-- Witness for `acquire_bounded_retry`: a held lock whose holder (pid
5) stays live, with an environment that re-writes the record with dead
pid 99 in the race window, so the staleness check reports stale and
the call retries exactly once; plus a still-contended retry world for
the last clause. -/
theorem acquire_bounded_retry_witness :
    ((LockModel.openW ⟨some ⟨"5", 0⟩, some 5, 0, [5]⟩).flockHolder ≠ none
  ∧ (LockModel.is_stale { LockModel.lockInit with lockFile := some ⟨false⟩ }
      ((fun x => { x with record := some ⟨"99", x.now⟩ })
        (LockModel.openW ⟨some ⟨"5", 0⟩, some 5, 0, [5]⟩))).1 = true
  ∧ (LockModel.acquire 1 LockModel.lockInit ⟨some ⟨"5", 0⟩, some 5, 0, [5]⟩
      (fun x => { x with record := some ⟨"99", x.now⟩ })).attempts = 2)
  ∧ ((LockModel.openW ⟨some ⟨"8", 3⟩, some 8, 3, [8]⟩).flockHolder ≠ none
  ∧ (LockModel.acquire2 1 LockModel.lockInit ⟨some ⟨"8", 3⟩, some 8, 3, [8]⟩).ok
      = false
  ∧ (LockModel.acquire2 1 LockModel.lockInit
      ⟨some ⟨"8", 3⟩, some 8, 3, [8]⟩).attempts = 1) :=
  ⟨⟨by decide, by decide,
    (acquire_bounded_retry 1 LockModel.lockInit ⟨some ⟨"5", 0⟩, some 5, 0, [5]⟩
      (fun x => { x with record := some ⟨"99", x.now⟩ })).2.2.2.1
      (by decide) (by decide)⟩,
   ⟨by decide,
    (acquire_bounded_retry 1 LockModel.lockInit ⟨some ⟨"5", 0⟩, some 5, 0, [5]⟩
      (fun x => { x with record := some ⟨"99", x.now⟩ })).2.2.2.2
      ⟨some ⟨"8", 3⟩, some 8, 3, [8]⟩ id (by decide)⟩⟩

/-- Claim C3, amended.  On the spec's scenario inputs the two URLs
normalise to the same cache path, but deduplication is by exact URL,
so `download` issues two fetch jobs (both targeting that one path)
rather than one; once that single file exists, both original pairs
report ready. -/
theorem download_dedup_by_url_same_path :
    get_favicon_path "https://a.com/x?q=1" = get_favicon_path "https://a.com/x?q=2"
  ∧ (∀ (self : Nat) (st : IconDownloader.DSt) (w : IconDownloader.DWorld),
      st.url_paths
        = [("https://a.com/x?q=1", get_favicon_path "https://a.com/x?q=1"),
           ("https://a.com/x?q=2", get_favicon_path "https://a.com/x?q=2")] →
      w.files = [] → w.lw.flockHolder = none →
      (IconDownloader.download self st w).launchedJobs.length = 2)
  ∧ (∀ (self : Nat) (st : IconDownloader.DSt) (w : IconDownloader.DWorld),
      st.proc = none →
      w.files.contains (get_favicon_path "https://a.com/x?q=1") = true →
      IconDownloader.is_icon_downloaded self st w
          (get_favicon_path "https://a.com/x?q=1") = some (true, st, w)
      ∧ IconDownloader.is_icon_downloaded self st w
          (get_favicon_path "https://a.com/x?q=2") = some (true, st, w)) := by
  refine ⟨favicon_path_q1_q2, ?_, ?_⟩
  · intro self st w hup hfiles hfree
    have hneeded : IconDownloader.needed_path_urls st w
        = [("https://a.com/x?q=1", get_favicon_path "https://a.com/x?q=1"),
           ("https://a.com/x?q=2", get_favicon_path "https://a.com/x?q=2")] := by
      unfold IconDownloader.needed_path_urls
      rw [hup, hfiles]
      rfl
    have hok := acquire_of_free self st.lock w.lw id hfree
    simp [IconDownloader.download, hneeded, hok]
  · intro self st w hproc hc1
    have hc2 : w.files.contains (get_favicon_path "https://a.com/x?q=2") = true := by
      rw [← favicon_path_q1_q2]
      exact hc1
    constructor
    · simp only [IconDownloader.is_icon_downloaded, hproc]
      simpa using hc1
    · simp only [IconDownloader.is_icon_downloaded, hproc]
      simpa using hc2

/-- Witness for `download_dedup_by_url_same_path`: the scenario run on
an empty cache with a free lock, and a readiness check once the shared
file exists. -/
theorem download_dedup_by_url_same_path_witness :
    (IconDownloader.download 1
      ⟨[("https://a.com/x?q=1", get_favicon_path "https://a.com/x?q=1"),
        ("https://a.com/x?q=2", get_favicon_path "https://a.com/x?q=2")],
       0, LockModel.lockInit, none⟩
      ⟨[], ⟨none, none, 0, [1]⟩, 4⟩).launchedJobs.length = 2
  ∧ IconDownloader.is_icon_downloaded 1
      ⟨[], 0, LockModel.lockInit, none⟩
      ⟨[get_favicon_path "https://a.com/x?q=1"], ⟨none, none, 0, []⟩, 0⟩
      (get_favicon_path "https://a.com/x?q=1")
      = some (true, ⟨[], 0, LockModel.lockInit, none⟩,
          ⟨[get_favicon_path "https://a.com/x?q=1"], ⟨none, none, 0, []⟩, 0⟩) :=
  ⟨download_dedup_by_url_same_path.2.1 1
     ⟨[("https://a.com/x?q=1", get_favicon_path "https://a.com/x?q=1"),
       ("https://a.com/x?q=2", get_favicon_path "https://a.com/x?q=2")],
      0, LockModel.lockInit, none⟩
     ⟨[], ⟨none, none, 0, [1]⟩, 4⟩ rfl rfl rfl,
   (download_dedup_by_url_same_path.2.2 1
     ⟨[], 0, LockModel.lockInit, none⟩
     ⟨[get_favicon_path "https://a.com/x?q=1"], ⟨none, none, 0, []⟩, 0⟩
     rfl (by simp)).1⟩

/-- Claim C10.  `cachePath` ignores query and fragment and ignores a
`www.` prefix after the scheme: the two pairs of URLs from the spec
map to identical cache paths. -/
theorem cachePath_normalization_equalities :
    get_favicon_path "https://example.com/a?x=1#y" = get_favicon_path "https://example.com/a"
  ∧ get_favicon_path "http://www.example.com/a" = get_favicon_path "http://example.com/a" := by
  constructor
  · have h : fileUrlSub "https://example.com/a?x=1#y" = fileUrlSub "https://example.com/a" := by
      decide
    unfold get_favicon_path
    rw [h]
  · have h : fileUrlSub "http://www.example.com/a" = fileUrlSub "http://example.com/a" := by
      decide
    unfold get_favicon_path
    rw [h]

end BrowserTabs
